import Mathlib

/-!
Shallow embedding of the transaction-orchestration core of the
mpesa-integration-platform repository.

Sources embedded here:
- `server/src/services/transactions/transactionService.js`
  (`TransactionService.initiatePayment`, `checkTransactionStatus`,
  `cancelTransaction`, `processCallback`, `getDefaultCurrency`,
  `formatTransactionResponse`);
- `server/src/models/transaction.js` (the mongoose schema's
  `pre('save')` hook that appends to `statusHistory`);
- `server/src/services/transactions/transactionScheduler.js`
  (`_checkPendingTransactions` per-item logic, `_retryFailedTransactions`);
- `server/src/services/transactions/webhookService.js`
  (`_sendWebhook`, `_generateSignature`);
- `server/src/services/notifications/webhookService.js`
  (`WebhookNotificationService._sendWithRetry`).

Persistence (mongoose) is modelled as an explicit store (a list of
transaction records) threaded through each operation; external HTTP calls
(the gateway, webhook targets) are modelled as oracle parameters giving
the outcome the remote end would produce.  JavaScript's loose truthiness
and strict equality, which matter for the status-mapping code, are
modelled explicitly on a `JSVal` type.
-/

namespace MpesaPlatform

/-- Transaction status values.  The schema enum is
`['initiated','pending','completed','failed','canceled','expired']`;
the scheduler additionally writes the ephemeral `'retry'` status and
pushes `'retry_failed'` history entries, so those appear here too. -/
inductive Status
  | initiated
  | pending
  | completed
  | failed
  | canceled
  | expired
  | retry
  | retryFailed
  deriving DecidableEq, Repr

/-- A JavaScript value as far as the status-mapping code can observe it:
a number, a string, or `undefined` (a missing property). -/
inductive JSVal
  | num (n : Int)
  | str (s : String)
  | undef
  deriving DecidableEq, Repr

/-- JavaScript truthiness: `0`, `""` and `undefined` are falsy. -/
def JSVal.truthy : JSVal → Bool
  | .num n => n ≠ 0
  | .str s => s ≠ ""
  | .undef => false

/-- JavaScript `a || b`: `a` when truthy, otherwise `b`. -/
def jsOr (a b : JSVal) : JSVal := if a.truthy then a else b

/-- JavaScript strict equality `v === n` against a number literal. -/
def jsEqNum (v : JSVal) (n : Int) : Bool :=
  match v with
  | .num m => m = n
  | _ => false

/-- JavaScript strict equality `v === s` against a string literal. -/
def jsEqStr (v : JSVal) (s : String) : Bool :=
  match v with
  | .str t => t = s
  | _ => false

/-- One item of the STK callback's `CallbackMetadata.Item` array. -/
structure CbItem where
  name : String
  value : String
  deriving DecidableEq, Repr

/-- The observable content of an M-Pesa callback payload
(`callbackData.Body?.stkCallback?...`); `Option` models the optional
chaining yielding `undefined`. -/
structure CallbackData where
  resultCode : Option Int
  resultDesc : Option String
  items : Option (List CbItem)
  deriving DecidableEq, Repr

/-- The gateway's immediate response to an STK push initiation. -/
structure MpesaResponse where
  checkoutRequestID : Option String
  transactionId : Option String
  deriving DecidableEq, Repr

/-- The gateway's response to a status query, as the mapping code reads
it: `ResultCode` and `ResultDesc` (the service path), plus the `status`
property the scheduler's generic branch reads (`statusText` here). -/
structure StatusResponse where
  resultCode : JSVal
  resultDesc : JSVal
  statusText : JSVal
  deriving DecidableEq, Repr

/-- Metadata attached to a status-history entry; `hook` marks the
entries pushed by the schema's `pre('save')` hook, which carry no
metadata field. -/
inductive HMeta
  | hook
  | initiatedBy (who : String)
  | mpesaRef (r : Option String)
  | statusResp (resp : StatusResponse)
  | cancelledBy (who : String)
  | receipt (receiptNumber txDate phone : Option String)
  | resultCodeOnly (rc : Option Int)
  | failedCb (rc : Option Int) (desc : Option String)
  | retryCountMeta (n : Int)
  | schedResp (resp : StatusResponse)
  | expiredReason (reason : String)
  | retryError (msg : String)
  deriving DecidableEq, Repr

/-- One entry of `statusHistory`. -/
structure HistEntry where
  status : Status
  timestamp : Nat
  metadata : HMeta
  deriving DecidableEq, Repr

/-- The payment request data (`data` in `initiatePayment`). -/
structure PaymentData where
  amount : Int
  currency : Option String
  country : String
  phoneNumber : String
  reference : Option String
  description : Option String
  callbackUrl : Option String
  deriving DecidableEq, Repr

/-- A ledger record.  `canRetry`/`retryCount` model the
`metadata.canRetry` / `metadata.retryCount` fields the retry sweep
queries; `statusCheck` models the `statusCheck` key merged into
`responsePayload` by `checkTransactionStatus`. -/
structure Transaction where
  id : String
  business : String
  transactionType : String
  amount : Int
  currency : String
  country : String
  phoneNumber : String
  mpesaReference : Option String
  internalReference : String
  status : Status
  statusHistory : List HistEntry
  callbackData : Option CallbackData
  requestPayload : Option PaymentData
  responsePayload : Option MpesaResponse
  statusCheck : Option StatusResponse
  canRetry : Option Bool
  retryCount : Option Int
  createdAt : Nat
  updatedAt : Nat
  deriving DecidableEq, Repr

/-- JavaScript string lowercasing (`toLowerCase`), written over the
character list so it evaluates inside the kernel. -/
def lowerStr (s : String) : String := String.mk (s.data.map Char.toLower)

/-- The persistence layer: the collection of transaction records. -/
abbrev Store := List Transaction

/-- `Transaction.findById` / `findOne({_id})`. -/
def findById (store : Store) (tid : String) : Option Transaction :=
  List.find? (fun t => t.id = tid) store

/-- Saving an existing document: replace the record with the same id. -/
def saveToStore (store : Store) (t : Transaction) : Store :=
  List.map (fun u => if u.id = t.id then t else u) store

/-- The transaction schema's `pre('save')` hook: refresh `updatedAt`;
on a new document reset `statusHistory` to a single entry carrying the
creation status; on a saved document append one timestamped entry iff
the status path was modified (modelled as: differs from the persisted
status). -/
def saveHook (isNew : Bool) (persisted : Option Status) (now : Nat)
    (t : Transaction) : Transaction :=
  let t1 := { t with updatedAt := now }
  if isNew then
    { t1 with statusHistory :=
        [{ status := t1.status, timestamp := t1.createdAt, metadata := .hook }] }
  else if persisted ≠ some t1.status then
    { t1 with statusHistory :=
        t1.statusHistory ++ [{ status := t1.status, timestamp := now, metadata := .hook }] }
  else t1

/-- One API key entry of a business (`business.apiKeys`). -/
structure ApiKeyEntry where
  key : String
  isActive : Bool
  deriving DecidableEq, Repr

/-- One M-Pesa integration of a business (`business.mpesaIntegrations`);
only the field the orchestration logic branches on is kept. -/
structure Integration where
  country : String
  isLive : Bool
  deriving DecidableEq, Repr

/-- A business record, restricted to the fields the transaction
service reads. -/
structure Business where
  id : String
  name : String
  apiKeys : List ApiKeyEntry
  mpesaIntegrations : List Integration
  webhookUrl : Option String
  deriving DecidableEq, Repr

/-- `Business.findOne({'apiKeys.key': apiKey})`. -/
def findBusiness (businesses : List Business) (apiKey : String) : Option Business :=
  List.find? (fun b => b.apiKeys.any (fun k => k.key = apiKey)) businesses

/-- `business.apiKeys.find(k => k.key === apiKey)`. -/
def findApiKey (b : Business) (apiKey : String) : Option ApiKeyEntry :=
  List.find? (fun k => k.key = apiKey) b.apiKeys

/-- `business.mpesaIntegrations.find` comparing lowercased country
codes. -/
def findIntegration (b : Business) (country : String) : Option Integration :=
  List.find? (fun i => lowerStr i.country = lowerStr country) b.mpesaIntegrations

/-- `getDefaultCurrency`: per-country currency map with `'KES'` as the
fallback. -/
def getDefaultCurrency (country : String) : String :=
  if lowerStr country = "kenya" then "KES"
  else if lowerStr country = "tanzania" then "TZS"
  else if lowerStr country = "uganda" then "UGX"
  else if lowerStr country = "rwanda" then "RWF"
  else if lowerStr country = "mozambique" then "MZN"
  else if lowerStr country = "drc" then "CDF"
  else "KES"

/-- The shape `formatTransactionResponse` returns. -/
structure FmtResp where
  transactionId : String
  status : Status
  mpesaReference : Option String
  amount : Int
  currency : String
  phoneNumber : String
  reference : String
  country : String
  createdAt : Nat
  updatedAt : Nat
  deriving DecidableEq, Repr

/-- `formatTransactionResponse`. -/
def formatTransactionResponse (t : Transaction) : FmtResp :=
  { transactionId := t.id
    status := t.status
    mpesaReference := t.mpesaReference
    amount := t.amount
    currency := t.currency
    phoneNumber := t.phoneNumber
    reference := t.internalReference
    country := t.country
    createdAt := t.createdAt
    updatedAt := t.updatedAt }

/-- The normalized gateway error categories. -/
inductive GatewayErr
  | authFailure
  | networkTimeout
  | validationRejected
  | unknown
  deriving DecidableEq, Repr

/-- The `AppError`s the transaction service throws, plus the rethrown
gateway error. -/
inductive SvcError
  | invalidApiKey
  | inactiveApiKey
  | noIntegration (country : String)
  | notImplemented (what country : String)
  | transactionNotFound
  | cannotCancel (st : Status)
  | gatewayError (e : GatewayErr)
  deriving DecidableEq, Repr

/-- JavaScript `a || b` on an optional string against a string default
(string truthiness: `""` is falsy). -/
def jsOrStr (a : Option String) (dflt : String) : String :=
  match a with
  | some s => if s = "" then dflt else s
  | none => dflt

/-- JavaScript `a || b` on two optional strings. -/
def jsOrOpt (a b : Option String) : Option String :=
  match a with
  | some s => if s = "" then b else some s
  | none => b

/-- The object `initiatePayment` returns on success (it differs from
`formatTransactionResponse`: no `country`/`updatedAt`). -/
structure InitResult where
  transactionId : String
  status : Status
  mpesaReference : Option String
  amount : Int
  currency : String
  phoneNumber : String
  reference : String
  createdAt : Nat
  deriving DecidableEq, Repr

/-- The callback URL handed to the gateway:
`data.callbackUrl || API_BASE_URL + '/api/webhooks/mpesa/' + transaction._id`. -/
def callbackUrlUsed (data : PaymentData) (baseUrl newId : String) : String :=
  jsOrStr data.callbackUrl (baseUrl ++ "/api/webhooks/mpesa/" ++ newId)

/-- The document `initiatePayment` passes to `Transaction.create`
(`status: 'initiated'`, service-supplied first history entry — which
the `pre('save')` hook then replaces on a new document). -/
def mkInitialDoc (business : Business) (data : PaymentData)
    (internalReference newId : String) (now : Nat) : Transaction :=
  { id := newId
    business := business.id
    transactionType := "payment"
    amount := data.amount
    currency := jsOrStr data.currency (getDefaultCurrency data.country)
    country := data.country
    phoneNumber := data.phoneNumber
    mpesaReference := none
    internalReference := internalReference
    status := .initiated
    statusHistory := [{ status := .initiated, timestamp := now,
                        metadata := .initiatedBy "api" }]
    callbackData := none
    requestPayload := some data
    responsePayload := none
    statusCheck := none
    canRetry := none
    retryCount := none
    createdAt := now
    updatedAt := now }

/-- The in-memory update `initiatePayment` performs after a successful
gateway call: `mpesaReference = CheckoutRequestID || transactionId`,
store the raw response, move to `pending` and push a history entry. -/
def applyGatewayResponse (doc : Transaction) (resp : MpesaResponse)
    (now : Nat) : Transaction :=
  let ref := jsOrOpt resp.checkoutRequestID resp.transactionId
  { doc with
    mpesaReference := ref
    responsePayload := some resp
    status := .pending
    statusHistory := doc.statusHistory ++
      [{ status := .pending, timestamp := now, metadata := .mpesaRef ref }] }

/-- The object `initiatePayment` returns on success. -/
def initResultOf (t2 : Transaction) (internalReference : String) : InitResult :=
  { transactionId := t2.id
    status := t2.status
    mpesaReference := t2.mpesaReference
    amount := t2.amount
    currency := t2.currency
    phoneNumber := t2.phoneNumber
    reference := internalReference
    createdAt := t2.createdAt }

/-- `TransactionService.initiatePayment(data, apiKey)`.

External inputs made explicit: `businesses` (the business collection),
`store` (the transaction collection), `genRef` (the `uuidv4()` used when
`data.reference` is falsy), `newId` (the id mongoose assigns to the new
document), `now` (the clock), and `gw` (the outcome the gateway produces
for the STK push).  Returns the final store together with either the
result object or the error thrown. -/
def initiatePayment (businesses : List Business) (store : Store)
    (data : PaymentData) (apiKey : String) (genRef newId : String) (now : Nat)
    (gw : Except GatewayErr MpesaResponse) : Store × Except SvcError InitResult :=
  match findBusiness businesses apiKey with
  | none => (store, .error .invalidApiKey)
  | some business =>
    match findApiKey business apiKey with
    | none => (store, .error .inactiveApiKey)
    | some keyEntry =>
      if !keyEntry.isActive then (store, .error .inactiveApiKey)
      else
        match findIntegration business data.country with
        | none => (store, .error (.noIntegration data.country))
        | some _ =>
          let internalReference := jsOrStr data.reference genRef
          let doc := saveHook true none now
            (mkInitialDoc business data internalReference newId now)
          let store1 := store ++ [doc]
          if lowerStr data.country = "kenya" then
            match gw with
            | .error e => (store1, .error (.gatewayError e))
            | .ok resp =>
              let t2 := saveHook false (some .initiated) now
                (applyGatewayResponse doc resp now)
              (saveToStore store1 t2, .ok (initResultOf t2 internalReference))
          else
            (store1, .error (.notImplemented "Payment initiation" data.country))

/-- The statuses `checkTransactionStatus` treats as final:
`['completed', 'failed', 'canceled']` (note: not `expired`). -/
def finalStates : List Status := [.completed, .failed, .canceled]

/-- The status-mapping step of `checkTransactionStatus`:
`const resultCode = statusResponse.ResultCode || statusResponse.ResultDesc`
followed by strict comparisons against the numbers `0` and `1032`. -/
def mapResultCode (resp : StatusResponse) : Status :=
  let rc := jsOr resp.resultCode resp.resultDesc
  if jsEqNum rc 0 then .completed
  else if jsEqNum rc 1032 then .canceled
  else .failed

/-- `Transaction.findOne({_id: tid, business: bid})`. -/
def findByIdAndBusiness (store : Store) (tid bid : String) : Option Transaction :=
  List.find? (fun t => t.id = tid ∧ t.business = bid) store

/-- `TransactionService.checkTransactionStatus(transactionId, apiKey)`.

The middle component of the result records whether the gateway's status
query was invoked.  `gw` is the outcome that query would produce. -/
def checkTransactionStatus (businesses : List Business) (store : Store)
    (tid apiKey : String) (now : Nat)
    (gw : Except GatewayErr StatusResponse) :
    Store × Bool × Except SvcError FmtResp :=
  match findBusiness businesses apiKey with
  | none => (store, false, .error .invalidApiKey)
  | some business =>
    match findByIdAndBusiness store tid business.id with
    | none => (store, false, .error .transactionNotFound)
    | some t =>
      if t.status ∈ finalStates then
        (store, false, .ok (formatTransactionResponse t))
      else
        match findIntegration business t.country with
        | none => (store, false, .error (.noIntegration t.country))
        | some _ =>
          if lowerStr t.country = "kenya" then
            match gw with
            | .error e => (store, true, .error (.gatewayError e))
            | .ok resp =>
              let st := mapResultCode resp
              let t1 := { t with
                status := st
                statusHistory := t.statusHistory ++
                  [{ status := st, timestamp := now, metadata := .statusResp resp }]
                statusCheck := some resp }
              let t2 := saveHook false (some t.status) now t1
              (saveToStore store t2, true, .ok (formatTransactionResponse t2))
          else
            (store, false, .error (.notImplemented "Status check" t.country))

/-- `TransactionService.cancelTransaction(transactionId, apiKey)`.
The operation takes no gateway oracle: the code comments that a gateway
cancel might be needed for some countries but only updates local state. -/
def cancelTransaction (businesses : List Business) (store : Store)
    (tid apiKey : String) (now : Nat) : Store × Except SvcError FmtResp :=
  match findBusiness businesses apiKey with
  | none => (store, .error .invalidApiKey)
  | some business =>
    match findApiKey business apiKey with
    | none => (store, .error .inactiveApiKey)
    | some keyEntry =>
      if !keyEntry.isActive then (store, .error .inactiveApiKey)
      else
        match findByIdAndBusiness store tid business.id with
        | none => (store, .error .transactionNotFound)
        | some t =>
          if t.status ∈ [Status.initiated, Status.pending] then
            let t1 := { t with
              status := .canceled
              statusHistory := t.statusHistory ++
                [{ status := .canceled, timestamp := now,
                   metadata := .cancelledBy "api" }] }
            let t2 := saveHook false (some t.status) now t1
            (saveToStore store t2, .ok (formatTransactionResponse t2))
          else
            (store, .error (.cannotCancel t.status))

/-- The `CallbackMetadata.Item` scan of `processCallback`: collect
`MpesaReceiptNumber`, `TransactionDate` and `PhoneNumber` values. -/
def extractReceipt (items : List CbItem) :
    Option String × Option String × Option String :=
  items.foldl
    (fun acc it =>
      if it.name = "MpesaReceiptNumber" then (some it.value, acc.2.1, acc.2.2)
      else if it.name = "TransactionDate" then (acc.1, some it.value, acc.2.2)
      else if it.name = "PhoneNumber" then (acc.1, acc.2.1, some it.value)
      else acc)
    (none, none, none)

/-- `TransactionService.processCallback(transactionId, callbackData)`.
Looks the transaction up with `Transaction.findById(transactionId)` —
the id taken from the callback URL path — and applies the
callback-derived status.  The tail of the function (webhook hand-off)
reads but never mutates the transaction and is omitted. -/
def processCallback (store : Store) (tid : String) (cb : CallbackData)
    (now : Nat) : Store × Except SvcError FmtResp :=
  match findById store tid with
  | none => (store, .error .transactionNotFound)
  | some t =>
    let t0 := { t with callbackData := some cb }
    let t1 :=
      if lowerStr t0.country = "kenya" then
        if cb.resultCode = some 0 then
          let entry : HistEntry :=
            match cb.items with
            | some items =>
              let r := extractReceipt items
              { status := .completed, timestamp := now,
                metadata := .receipt r.1 r.2.1 r.2.2 }
            | none =>
              { status := .completed, timestamp := now,
                metadata := .resultCodeOnly cb.resultCode }
          { t0 with
            status := .completed
            statusHistory := t0.statusHistory ++ [entry] }
        else
          { t0 with
            status := .failed
            statusHistory := t0.statusHistory ++
              [{ status := .failed, timestamp := now,
                 metadata := .failedCb cb.resultCode cb.resultDesc }] }
      else t0
    let t2 := saveHook false (some t.status) now t1
    (saveToStore store t2, .ok (formatTransactionResponse t2))

/-- Rendering of a gateway error for the `retry_failed` history entry
(`error.message`). -/
def gatewayErrMessage : GatewayErr → String
  | .authFailure => "auth_failure"
  | .networkTimeout => "network_timeout"
  | .validationRejected => "validation_rejected"
  | .unknown => "unknown"

/-- Per-item logic of the scheduler's `_checkPendingTransactions`
(reconciliation) sweep: skip items without an M-Pesa reference; on a
gateway error the per-item `catch` leaves the record unchanged;
otherwise map the response (`ResultCode === '0'` / `'1'` for Kenya, the
`status` property otherwise) and save only when the status changed. -/
def reconcileItem (gw : Except GatewayErr StatusResponse) (now : Nat)
    (t : Transaction) : Transaction :=
  match t.mpesaReference with
  | none => t
  | some _ =>
    match gw with
    | .error _ => t
    | .ok resp =>
      let newStatus :=
        if lowerStr t.country = "kenya" then
          if jsEqStr resp.resultCode "0" then Status.completed
          else if jsEqStr resp.resultCode "1" then Status.failed
          else t.status
        else
          if jsEqStr resp.statusText "success" then Status.completed
          else if jsEqStr resp.statusText "failed" then Status.failed
          else t.status
      if newStatus ≠ t.status then
        saveHook false (some t.status) now
          { t with
            status := newStatus
            statusHistory := t.statusHistory ++
              [{ status := newStatus, timestamp := now, metadata := .schedResp resp }] }
      else t

/-- The retry sweep's selection query:
`{status: 'failed', 'metadata.canRetry': true, 'metadata.retryCount': {$lt: 3}}`.
MongoDB comparison operators such as `$lt` only match documents in which
the field is present, so a missing `retryCount` is never selected. -/
def retrySelect (t : Transaction) : Bool :=
  t.status = .failed && t.canRetry = some true &&
    (match t.retryCount with
     | some n => decide (n < 3)
     | none => false)

/-- The retry sweep's increment:
`if (!retryCount) retryCount = 1; else retryCount += 1` —
`!retryCount` is true for both a missing and a zero count. -/
def bumpRetryCount : Option Int → Int
  | none => 1
  | some m => if m = 0 then 1 else m + 1

/-- Per-item logic of `_retryFailedTransactions`: bump the retry count,
move to the ephemeral `retry` status, save, then re-dispatch the
payment.  On dispatch success: store the new reference and move to
`pending`; on dispatch error: push a `retry_failed` history entry
(leaving the status at `retry`). -/
def retryItem (gw : Except GatewayErr MpesaResponse) (now : Nat)
    (t : Transaction) : Transaction :=
  let n := bumpRetryCount t.retryCount
  let t1 := { t with
    retryCount := some n
    status := .retry
    statusHistory := t.statusHistory ++
      [{ status := .retry, timestamp := now, metadata := .retryCountMeta n }] }
  let t1 := saveHook false (some t.status) now t1
  match gw with
  | .ok resp =>
    let t2 := { t1 with
      mpesaReference := resp.transactionId
      status := .pending
      statusHistory := t1.statusHistory ++
        [{ status := .pending, timestamp := now, metadata := .mpesaRef resp.transactionId }] }
    saveHook false (some .retry) now t2
  | .error e =>
    let t2 := { t1 with
      statusHistory := t1.statusHistory ++
        [{ status := .retryFailed, timestamp := now,
           metadata := .retryError (gatewayErrMessage e) }] }
    saveHook false (some .retry) now t2

/-- One execution of `_retryFailedTransactions`: fetch the batch
(selection query, `limit(50)`), then process and save each item.  `gw`
gives, per transaction id, the outcome of the re-dispatched payment. -/
def retrySweep (gw : String → Except GatewayErr MpesaResponse) (now : Nat)
    (store : Store) : Store :=
  let batch := (store.filter retrySelect).take 50
  batch.foldl (fun s t => saveToStore s (retryItem (gw t.id) now t)) store

/-- `WebhookNotificationService`: default `retryAttempts`. -/
def defaultRetryAttempts : Nat := 3

/-- The attempt loop of `_sendWithRetry`, structured over remaining
fuel (the loop runs for `attempt = 1 .. retryAttempts`).  `ok n` is
whether the HTTP call of attempt `n` succeeds.  Returns the list of
attempt numbers performed (each is also sent as the `X-Attempt-Number`
header), the backoff delays waited in milliseconds
(`Math.pow(2, attempt) * 1000` after each failed non-final attempt),
and whether delivery succeeded (`false` = the final `AppError`,
delivery failed, is thrown). -/
def sendLoop (ok : Nat → Bool) (maxAttempts : Nat) :
    Nat → Nat → List Nat × List Nat × Bool
  | 0, _ => ([], [], false)
  | fuel + 1, attempt =>
    if ok attempt then ([attempt], [], true)
    else if attempt < maxAttempts then
      let rest := sendLoop ok maxAttempts fuel (attempt + 1)
      (attempt :: rest.1, (2 ^ attempt * 1000) :: rest.2.1, rest.2.2)
    else ([attempt], [], false)

/-- `WebhookNotificationService._sendWithRetry` with `retryAttempts =
maxAttempts`. -/
def sendWithRetry (maxAttempts : Nat) (ok : Nat → Bool) :
    List Nat × List Nat × Bool :=
  sendLoop ok maxAttempts maxAttempts 1

/-- `WebhookService._generateSignature(payload)`: the code returns the
constant placeholder string — no HMAC is computed and no secret is
consulted. -/
def generateSignature (_payload : String) : String :=
  "signature-placeholder"

/-- The headers `WebhookService._sendWebhook` attaches to the outbound
`axios.post`. -/
def sendWebhookHeaders (payload : String) : List (String × String) :=
  [("Content-Type", "application/json"),
   ("X-Webhook-Signature", generateSignature payload)]

/-! ### Concrete test fixtures -/

/-- An active API key. -/
def keyA : ApiKeyEntry := { key := "key-1", isActive := true }

/-- A business with a Kenya integration and a webhook URL. -/
def bizA : Business :=
  { id := "biz-1"
    name := "Acme"
    apiKeys := [keyA]
    mpesaIntegrations := [{ country := "kenya", isLive := false }]
    webhookUrl := some "https://client.example/hook" }

/-- The business collection used in concrete runs. -/
def businesses1 : List Business := [bizA]

/-- A concrete payment request. -/
def payData : PaymentData :=
  { amount := 1000
    currency := some "KES"
    country := "kenya"
    phoneNumber := "254712345678"
    reference := some "ref-1"
    description := none
    callbackUrl := none }

/-- A transaction fixture parameterized by id, status and gateway
reference. -/
def mkTxn (tid : String) (st : Status) (ref : Option String) : Transaction :=
  { id := tid
    business := "biz-1"
    transactionType := "payment"
    amount := 1000
    currency := "KES"
    country := "kenya"
    phoneNumber := "254712345678"
    mpesaReference := ref
    internalReference := "ref-1"
    status := st
    statusHistory := [{ status := .initiated, timestamp := 0, metadata := .hook }]
    callbackData := none
    requestPayload := none
    responsePayload := none
    statusCheck := none
    canRetry := none
    retryCount := none
    createdAt := 0
    updatedAt := 0 }

/-! ### Helper lemmas about the persistence model -/

theorem saveHook_id (b : Bool) (p : Option Status) (now : Nat) (t : Transaction) :
    (saveHook b p now t).id = t.id := by
  unfold saveHook
  dsimp only
  split
  · rfl
  · split <;> rfl

theorem saveHook_status (b : Bool) (p : Option Status) (now : Nat) (t : Transaction) :
    (saveHook b p now t).status = t.status := by
  unfold saveHook
  dsimp only
  split
  · rfl
  · split <;> rfl

theorem saveHook_push (p : Option Status) (now : Nat) (t : Transaction)
    (h : p ≠ some t.status) :
    saveHook false p now t =
      { t with
        updatedAt := now
        statusHistory := t.statusHistory ++
          [{ status := t.status, timestamp := now, metadata := .hook }] } := by
  unfold saveHook
  simp [h]

theorem saveHook_same (p : Option Status) (now : Nat) (t : Transaction)
    (h : p = some t.status) :
    saveHook false p now t = { t with updatedAt := now } := by
  unfold saveHook
  simp [h]

theorem findById_append_fresh (store : Store) (doc : Transaction) (tid : String)
    (hfresh : ∀ u ∈ store, u.id ≠ tid) (hdoc : doc.id = tid) :
    findById (store ++ [doc]) tid = some doc := by
  unfold findById
  rw [List.find?_append]
  have h1 : List.find? (fun t => t.id = tid) store = none := by
    apply List.find?_eq_none.mpr
    intro u hu
    simp [hfresh u hu]
  rw [h1]
  simp [hdoc]

theorem saveToStore_append_fresh (store : Store) (doc t2 : Transaction)
    (hfresh : ∀ u ∈ store, u.id ≠ t2.id) (hdoc : doc.id = t2.id) :
    saveToStore (store ++ [doc]) t2 = store ++ [t2] := by
  unfold saveToStore
  rw [List.map_append]
  have hmap : List.map (fun u => if u.id = t2.id then t2 else u) store =
      List.map id store :=
    List.map_congr_left fun u hu => by simp [hfresh u hu]
  rw [hmap, List.map_id]
  simp [hdoc]

/-! ### C3 -/

/-- C3: for every `initiatePayment` call that passes the in-service
checks (business found by API key, key active, integration configured
for the target country), and any gateway outcome whatsoever — success,
gateway error, or an unimplemented-country throw — the returned store
contains a ledger record under the new id whose status is `initiated`
or `pending`: the record is created before the gateway is contacted and
survives a gateway failure. -/
theorem initiate_record_exists (businesses : List Business) (store : Store)
    (data : PaymentData) (apiKey genRef newId : String) (now : Nat)
    (gw : Except GatewayErr MpesaResponse)
    (b : Business) (k : ApiKeyEntry) (integ : Integration)
    (h1 : findBusiness businesses apiKey = some b)
    (h2 : findApiKey b apiKey = some k)
    (h3 : k.isActive = true)
    (h4 : findIntegration b data.country = some integ)
    (h5 : ∀ u ∈ store, u.id ≠ newId) :
    ∃ u, findById (initiatePayment businesses store data apiKey genRef newId now gw).1
          newId = some u ∧
        (u.status = .initiated ∨ u.status = .pending) := by
  unfold initiatePayment
  simp only [h1, h2, h3, h4, Bool.not_true, Bool.false_eq_true, if_false]
  have hdocid :
      (saveHook true none now
        (mkInitialDoc b data (jsOrStr data.reference genRef) newId now)).id = newId := by
    rw [saveHook_id]; rfl
  split
  · cases gw with
    | error e =>
      refine ⟨_, findById_append_fresh store _ newId h5 hdocid, Or.inl ?_⟩
      rw [saveHook_status]; rfl
    | ok resp =>
      dsimp only
      have ht2id :
          (saveHook false (some .initiated) now
            (applyGatewayResponse
              (saveHook true none now
                (mkInitialDoc b data (jsOrStr data.reference genRef) newId now))
              resp now)).id = newId := by
        rw [saveHook_id]
        exact hdocid
      refine ⟨saveHook false (some .initiated) now
          (applyGatewayResponse
            (saveHook true none now
              (mkInitialDoc b data (jsOrStr data.reference genRef) newId now))
            resp now), ?_, Or.inr (by rw [saveHook_status]; rfl)⟩
      rw [saveToStore_append_fresh store _ _
          (fun u hu => by rw [ht2id]; exact h5 u hu)
          (by rw [hdocid, ht2id])]
      exact findById_append_fresh store _ newId h5 ht2id
  · refine ⟨_, findById_append_fresh store _ newId h5 hdocid, Or.inl ?_⟩
    rw [saveHook_status]; rfl

/-- C3 witness: a concrete run with a failing gateway still leaves a
record at `initiated`. -/
theorem initiate_record_exists_witness :
    ∃ u, findById (initiatePayment businesses1 [] payData "key-1" "g" "t9" 5
          (.error .networkTimeout)).1 "t9" = some u ∧
        (u.status = .initiated ∨ u.status = .pending) :=
  initiate_record_exists businesses1 [] payData "key-1" "g" "t9" 5
    (.error .networkTimeout) bizA keyA { country := "kenya", isLive := false }
    (by decide) (by decide) (by decide) (by decide) (by intro u hu; cases hu)

/-! ### C1 -/

/-- C1 counterexample: in a concrete valid `initiatePayment` run whose
gateway call fails, the call ends with only the rethrown gateway error —
no transaction object is returned to the caller — and the stored ledger
record is still at `initiated`, not `failed`, refuting the claim that
the transaction is transitioned to `failed` and still returned. -/
theorem initiate_gateway_failure_counterexample :
    (initiatePayment businesses1 [] payData "key-1" "g" "t9" 5
        (.error .networkTimeout)).2 =
      .error (.gatewayError .networkTimeout) ∧
    (initiatePayment businesses1 [] payData "key-1" "g" "t9" 5
        (.error .networkTimeout)).1.map Transaction.status = [.initiated] := by
  constructor
  · rfl
  · rfl

/-- C1 amended: when the gateway call of a valid `initiatePayment` run
fails, the `catch` block logs and rethrows — the caller receives only
the gateway error (no transaction is returned with it), and the ledger
record created before the call remains in the store at status
`initiated`; no `failed` transition is applied and no error category is
recorded.  The record itself is never lost. -/
theorem initiate_gateway_failure (businesses : List Business) (store : Store)
    (data : PaymentData) (apiKey genRef newId : String) (now : Nat)
    (e : GatewayErr) (b : Business) (k : ApiKeyEntry) (integ : Integration)
    (h1 : findBusiness businesses apiKey = some b)
    (h2 : findApiKey b apiKey = some k)
    (h3 : k.isActive = true)
    (h4 : findIntegration b data.country = some integ)
    (hk : lowerStr data.country = "kenya") :
    initiatePayment businesses store data apiKey genRef newId now (.error e) =
      (store ++ [saveHook true none now
        (mkInitialDoc b data (jsOrStr data.reference genRef) newId now)],
       .error (.gatewayError e)) ∧
    (saveHook true none now
      (mkInitialDoc b data (jsOrStr data.reference genRef) newId now)).status =
      .initiated := by
  constructor
  · unfold initiatePayment
    simp only [h1, h2, h3, h4, Bool.not_true, Bool.false_eq_true, if_false, hk,
      if_true]
  · rw [saveHook_status]; rfl

/-- C1 amended witness. -/
theorem initiate_gateway_failure_witness :
    initiatePayment businesses1 [] payData "key-1" "g" "t9" 5
        (.error .networkTimeout) =
      ([saveHook true none 5 (mkInitialDoc bizA payData
          (jsOrStr payData.reference "g") "t9" 5)],
       .error (.gatewayError .networkTimeout)) ∧
    (saveHook true none 5 (mkInitialDoc bizA payData
        (jsOrStr payData.reference "g") "t9" 5)).status = .initiated :=
  initiate_gateway_failure businesses1 [] payData "key-1" "g" "t9" 5
    .networkTimeout bizA keyA { country := "kenya", isLive := false }
    (by decide) (by decide) (by decide) (by decide) (by decide)

/-! ### C2 -/

/-- A failure callback payload (`ResultCode` 1). -/
def cbFail : CallbackData :=
  { resultCode := some 1, resultDesc := some "Request cancelled by user",
    items := none }

/-- A success callback payload (`ResultCode` 0, no metadata items). -/
def cbOk : CallbackData :=
  { resultCode := some 0, resultDesc := none, items := none }

/-- C2 counterexample: a gateway callback processed against a
transaction already in the terminal state `completed` is not rejected —
there is no `InvalidStateTransition` anywhere in the code path — and
the record does not stay unchanged: the callback overwrites the status
with `failed` and the history grows from one entry to three (the
service's push plus the save hook's push, i.e. two per change, not
one). -/
theorem terminal_transition_counterexample :
    (processCallback [mkTxn "t1" .completed (some "ws1")] "t1" cbFail 9).2.isOk
      = true ∧
    (processCallback [mkTxn "t1" .completed (some "ws1")] "t1" cbFail 9).1.map
      Transaction.status = [.failed] ∧
    (processCallback [mkTxn "t1" .completed (some "ws1")] "t1" cbFail 9).1.map
      (fun t => t.statusHistory.length) = [3] := by
  refine ⟨rfl, rfl, rfl⟩

/-- C2 amended: neither `processCallback` nor the schema's `pre('save')`
hook validates status transitions.  A Kenya callback with a non-zero
result code applied to a transaction in any state other than `failed` —
including the terminal states `completed`, `expired` and `canceled` —
succeeds, overwrites the status with `failed`, stores the callback
payload, and appends two history entries (the service's entry with the
result metadata and then the hook's timestamped entry); no
`InvalidStateTransition` error exists and the record is updated rather
than left unchanged. -/
theorem processCallback_no_transition_guard (store : Store) (tid : String)
    (cb : CallbackData) (now : Nat) (t : Transaction) (n : Int)
    (ht : findById store tid = some t)
    (hk : lowerStr t.country = "kenya")
    (hrc : cb.resultCode = some n) (hn : n ≠ 0)
    (hst : t.status ≠ .failed) :
    ∃ t2, processCallback store tid cb now =
        (saveToStore store t2, .ok (formatTransactionResponse t2)) ∧
      t2.status = .failed ∧
      t2.callbackData = some cb ∧
      t2.statusHistory = t.statusHistory ++
        [{ status := .failed, timestamp := now,
           metadata := .failedCb cb.resultCode cb.resultDesc },
         { status := .failed, timestamp := now, metadata := .hook }] := by
  have hne : cb.resultCode ≠ some 0 := by
    rw [hrc]
    intro h
    exact hn (Option.some_injective _ h)
  refine ⟨{ t with
      callbackData := some cb
      status := .failed
      updatedAt := now
      statusHistory := t.statusHistory ++
        [{ status := .failed, timestamp := now,
           metadata := .failedCb cb.resultCode cb.resultDesc },
         { status := .failed, timestamp := now, metadata := .hook }] },
    ?_, rfl, rfl, rfl⟩
  unfold processCallback
  rw [ht]
  dsimp only
  rw [if_pos hk, if_neg hne,
    saveHook_push _ _ _ (fun hh => hst (Option.some_injective _ hh))]
  simp only [List.append_assoc, List.singleton_append]

/-- C2 amended witness: a failure callback applied to a concrete
`completed` transaction. -/
theorem processCallback_no_transition_guard_witness :
    ∃ t2, processCallback [mkTxn "t1" .completed (some "ws1")] "t1" cbFail 9 =
        (saveToStore [mkTxn "t1" .completed (some "ws1")] t2,
         .ok (formatTransactionResponse t2)) ∧
      t2.status = .failed ∧
      t2.callbackData = some cbFail ∧
      t2.statusHistory = (mkTxn "t1" .completed (some "ws1")).statusHistory ++
        [{ status := .failed, timestamp := 9,
           metadata := .failedCb cbFail.resultCode cbFail.resultDesc },
         { status := .failed, timestamp := 9, metadata := .hook }] :=
  processCallback_no_transition_guard [mkTxn "t1" .completed (some "ws1")]
    "t1" cbFail 9 (mkTxn "t1" .completed (some "ws1")) 1
    (by decide) (by decide) (by decide) (by decide) (by decide)

/-! ### C4 -/

/-- C4 counterexample: for a concrete transaction whose internal id is
`"t1"` and whose gateway correlation id (`mpesaReference`) is
`"ws_CO_99"`, processing a callback keyed by the correlation id fails
with not-found, while keying by the internal id succeeds — the
processor resolves by internal transaction id, not by gateway
correlation id. -/
theorem callback_lookup_counterexample :
    (processCallback [mkTxn "t1" .pending (some "ws_CO_99")] "ws_CO_99" cbOk
        9).2 = .error .transactionNotFound ∧
    (processCallback [mkTxn "t1" .pending (some "ws_CO_99")] "t1" cbOk
        9).2.isOk = true := by
  exact ⟨rfl, rfl⟩

/-- C4 amended: the callback processor resolves the target transaction
by the internal transaction id taken from the callback URL path
(`Transaction.findById`): the call errors with not-found exactly when no
record has that internal id, regardless of any `mpesaReference`.  The
default callback URL handed to the gateway embeds the internal id, so
the gateway does see internal ids; the correlation id plays no part in
the lookup. -/
theorem callback_lookup_by_internal_id (store : Store) (tid : String)
    (cb : CallbackData) (now : Nat) (data : PaymentData)
    (baseUrl newId : String) (hurl : data.callbackUrl = none) :
    ((processCallback store tid cb now).2 = .error .transactionNotFound ↔
      findById store tid = none) ∧
    callbackUrlUsed data baseUrl newId =
      baseUrl ++ "/api/webhooks/mpesa/" ++ newId := by
  constructor
  · cases h : findById store tid with
    | none => simp [processCallback, h]
    | some t => simp [processCallback, h]
  · simp [callbackUrlUsed, jsOrStr, hurl]

/-- C4 amended witness. -/
theorem callback_lookup_by_internal_id_witness :
    ((processCallback [mkTxn "t1" .pending (some "ws_CO_99")] "ws_CO_99" cbOk
        9).2 = .error .transactionNotFound ↔
      findById [mkTxn "t1" .pending (some "ws_CO_99")] "ws_CO_99" = none) ∧
    callbackUrlUsed payData "https://api.example" "t1" =
      "https://api.example" ++ "/api/webhooks/mpesa/" ++ "t1" :=
  callback_lookup_by_internal_id [mkTxn "t1" .pending (some "ws_CO_99")]
    "ws_CO_99" cbOk 9 payData "https://api.example" "t1" (by decide)

/-! ### C5 -/

/-- A successful status-query response with a numeric `ResultCode` 0. -/
def respNum0 : StatusResponse :=
  { resultCode := .num 0
    resultDesc := .str "The service request is processed successfully."
    statusText := .undef }

/-- A successful status-query response with the string `ResultCode`
`'0'` — the shape the repository's own test fixture asserts
(`expect(result.ResultCode).toBe('0')`). -/
def respStr0 : StatusResponse :=
  { resultCode := .str "0"
    resultDesc := .str "The service request is processed successfully."
    statusText := .undef }

/-- C5 code bug: for a pending Kenya transaction, the caller-driven
`checkTransactionStatus` marks a successful poll `failed` — under the
string `ResultCode` `'0'` the repository's own client test asserts, and
equally under a numeric `ResultCode` 0 (which the
`ResultCode || ResultDesc` coalescing discards before the strict
`=== 0` comparison) — while the reconciliation sweep's own mapping
(`ResultCode === '0'`) correctly yields `completed` on the same
response. -/
theorem status_poll_success_marked_failed :
    (checkTransactionStatus businesses1 [mkTxn "t1" .pending (some "ws1")]
        "t1" "key-1" 9 (.ok respStr0)).1.map Transaction.status = [.failed] ∧
    (checkTransactionStatus businesses1 [mkTxn "t1" .pending (some "ws1")]
        "t1" "key-1" 9 (.ok respNum0)).1.map Transaction.status = [.failed] ∧
    (reconcileItem (.ok respStr0) 9
        (mkTxn "t1" .pending (some "ws1"))).status = .completed := by
  refine ⟨rfl, rfl, rfl⟩

/-! ### C6 -/

/-- C6 code bug: the outbound webhook's `X-Webhook-Signature` header is
the constant placeholder string.  The signature does not depend on the
payload (here shown for two different bodies) and `_generateSignature`
takes no secret at all, so it is not an HMAC over the body under a
per-business secret; the code's own comment states HMAC-SHA256 with a
per-business secret as the intended real implementation. -/
theorem webhook_signature_placeholder :
    sendWebhookHeaders "bodyA" =
      [("Content-Type", "application/json"),
       ("X-Webhook-Signature", "signature-placeholder")] ∧
    generateSignature "bodyA" = generateSignature "bodyB" := by
  exact ⟨rfl, rfl⟩

/-! ### C7 -/

/-- C7 code bug: with the default of 3 attempts and a target failing
every time, the dispatcher performs exactly the attempts numbered 1, 2,
3 (each tagged with its attempt number) and then fails delivery — but
the backoff delays are 2000 ms and then 4000 ms
(`Math.pow(2, attempt) * 1000` for `attempt = 1, 2`), not the 1 s and
2 s the claim (and the code's own inline comment, `1s, 2s, 4s, ...`)
state. -/
theorem webhook_retry_schedule :
    sendWithRetry defaultRetryAttempts (fun _ => false) =
      ([1, 2, 3], [2000, 4000], false) := by
  rfl

/-! ### C8 -/

/-- C8 counterexample: a transaction in the terminal state `expired` is
not a no-op for `checkTransactionStatus` — the gateway status query is
invoked (middle component `true`) and the record is transitioned away
from `expired` — because the code's cached set is
`['completed', 'failed', 'canceled']`, which omits `expired`. -/
theorem checkStatus_expired_polls_counterexample :
    (checkTransactionStatus businesses1 [mkTxn "t1" .expired (some "ws1")]
        "t1" "key-1" 9 (.ok respStr0)).2.1 = true ∧
    (checkTransactionStatus businesses1 [mkTxn "t1" .expired (some "ws1")]
        "t1" "key-1" 9 (.ok respStr0)).1.map Transaction.status = [.failed] := by
  exact ⟨rfl, rfl⟩

/-- C8 amended: `checkTransactionStatus` returns the cached record
without contacting the gateway exactly when the status lies in the
code's final set `{completed, failed, canceled}` — so `failed` is
cached even though the spec calls it retriable, and `expired`, though
terminal, still triggers a gateway poll (as do `initiated` and
`pending`); in the cached case the store is returned unchanged with the
formatted cached record. -/
theorem checkStatus_cached_iff_code_final (businesses : List Business)
    (store : Store) (tid apiKey : String) (now : Nat)
    (gw : Except GatewayErr StatusResponse) (b : Business) (t : Transaction)
    (i : Integration)
    (h1 : findBusiness businesses apiKey = some b)
    (ht : findByIdAndBusiness store tid b.id = some t)
    (h4 : findIntegration b t.country = some i)
    (hk : lowerStr t.country = "kenya") :
    ((checkTransactionStatus businesses store tid apiKey now gw).2.1 = false ↔
      t.status ∈ finalStates) ∧
    (t.status ∈ finalStates →
      checkTransactionStatus businesses store tid apiKey now gw =
        (store, false, .ok (formatTransactionResponse t))) := by
  unfold checkTransactionStatus
  rw [h1]
  dsimp only
  rw [ht]
  dsimp only
  by_cases hf : t.status ∈ finalStates
  · rw [if_pos hf]
    exact ⟨⟨fun _ => hf, fun _ => rfl⟩, fun _ => rfl⟩
  · rw [if_neg hf, h4]
    dsimp only
    rw [if_pos hk]
    cases gw with
    | error e =>
      exact ⟨⟨fun h => absurd h (by simp), fun h => absurd h hf⟩,
        fun h => absurd h hf⟩
    | ok resp =>
      exact ⟨⟨fun h => absurd h (by simp), fun h => absurd h hf⟩,
        fun h => absurd h hf⟩

/-- C8 amended witness: a completed transaction is served from cache. -/
theorem checkStatus_cached_iff_code_final_witness :
    ((checkTransactionStatus businesses1 [mkTxn "t1" .completed (some "ws1")]
        "t1" "key-1" 9 (.error .unknown)).2.1 = false ↔
      (mkTxn "t1" .completed (some "ws1")).status ∈ finalStates) ∧
    ((mkTxn "t1" .completed (some "ws1")).status ∈ finalStates →
      checkTransactionStatus businesses1 [mkTxn "t1" .completed (some "ws1")]
          "t1" "key-1" 9 (.error .unknown) =
        ([mkTxn "t1" .completed (some "ws1")], false,
         .ok (formatTransactionResponse (mkTxn "t1" .completed (some "ws1"))))) :=
  checkStatus_cached_iff_code_final businesses1
    [mkTxn "t1" .completed (some "ws1")] "t1" "key-1" 9 (.error .unknown)
    bizA (mkTxn "t1" .completed (some "ws1"))
    { country := "kenya", isLive := false }
    (by decide) (by decide) (by decide) (by decide)

/-! ### C9 -/

theorem saveHook_retryCount (b : Bool) (p : Option Status) (now : Nat)
    (t : Transaction) : (saveHook b p now t).retryCount = t.retryCount := by
  unfold saveHook
  dsimp only
  split
  · rfl
  · split <;> rfl

theorem saveHook_canRetry (b : Bool) (p : Option Status) (now : Nat)
    (t : Transaction) : (saveHook b p now t).canRetry = t.canRetry := by
  unfold saveHook
  dsimp only
  split
  · rfl
  · split <;> rfl

theorem retryItem_retryCount (gw : Except GatewayErr MpesaResponse) (now : Nat)
    (t : Transaction) :
    (retryItem gw now t).retryCount = some (bumpRetryCount t.retryCount) := by
  unfold retryItem
  cases gw <;> simp [saveHook_retryCount]

theorem retryItem_canRetry (gw : Except GatewayErr MpesaResponse) (now : Nat)
    (t : Transaction) : (retryItem gw now t).canRetry = t.canRetry := by
  unfold retryItem
  cases gw <;> simp [saveHook_canRetry]

theorem mem_saveToStore {s : Store} {v u : Transaction}
    (hu : u ∈ saveToStore s v) : u ∈ s ∨ u = v := by
  unfold saveToStore at hu
  rcases List.mem_map.mp hu with ⟨a, ha, hfa⟩
  by_cases h : a.id = v.id
  · rw [if_pos h] at hfa
    exact Or.inr hfa.symm
  · rw [if_neg h] at hfa
    exact Or.inl (hfa ▸ ha)

theorem mem_foldl_saveToStore (f : Transaction → Transaction) :
    ∀ (batch : List Transaction) (s : Store) (u : Transaction),
      u ∈ batch.foldl (fun acc t => saveToStore acc (f t)) s →
      u ∈ s ∨ ∃ t ∈ batch, u = f t := by
  intro batch
  induction batch with
  | nil => exact fun s u hu => Or.inl hu
  | cons t ts ih =>
    intro s u hu
    simp only [List.foldl_cons] at hu
    rcases ih _ u hu with hs | ⟨w, hw, hwu⟩
    · rcases mem_saveToStore hs with h1 | h1
      · exact Or.inl h1
      · exact Or.inr ⟨t, List.mem_cons_self t ts, h1⟩
    · exact Or.inr ⟨w, List.mem_cons_of_mem t hw, hwu⟩

theorem retrySelect_canRetry (t : Transaction) (h : retrySelect t = true) :
    t.canRetry = some true := by
  unfold retrySelect at h
  simp only [Bool.and_eq_true, decide_eq_true_eq] at h
  exact h.1.2

theorem retrySelect_bound (t : Transaction) (h : retrySelect t = true) :
    bumpRetryCount t.retryCount ≤ 3 := by
  unfold retrySelect at h
  cases hrc : t.retryCount with
  | none => rw [hrc] at h; simp at h
  | some n =>
    rw [hrc] at h
    simp only [Bool.and_eq_true, decide_eq_true_eq] at h
    obtain ⟨-, h3⟩ := h
    unfold bumpRetryCount
    dsimp only
    by_cases h0 : n = 0
    · rw [if_pos h0]; omega
    · rw [if_neg h0]; omega

theorem retrySelect_spec (t : Transaction) (h : retrySelect t = true) :
    t.status = .failed ∧ t.canRetry = some true ∧
      t.retryCount.any (fun n => decide (n < 3)) = true := by
  unfold retrySelect at h
  cases hrc : t.retryCount with
  | none => rw [hrc] at h; simp at h
  | some n =>
    rw [hrc] at h
    simp only [Bool.and_eq_true, decide_eq_true_eq] at h
    obtain ⟨⟨h1, h2⟩, h3⟩ := h
    exact ⟨h1, h2, by simp [hrc, Option.any, h3]⟩

/-- The bound C9 asserts on the retry counter: absent, or at most the
maximum of 3. -/
def retryCountOk (t : Transaction) : Bool :=
  t.retryCount.all (fun n => decide (n ≤ 3))

/-- C9: one execution of the retry sweep preserves the retry-count
bound — every record of the post-sweep store has `retryCount ≤ 3`
whenever every record of the pre-sweep store did (a selected record has
`retryCount < 3`, and the increment takes it to at most 3) — a record
without `canRetry = true` re-appears in the result only as it was in
the pre-sweep store (it is never re-dispatched), and the selection
query accepts exactly `failed` records with `canRetry = true` and a
present `retryCount < 3`. -/
theorem retry_sweep_bounds (gw : String → Except GatewayErr MpesaResponse)
    (now : Nat) (store : Store)
    (hB : ∀ u ∈ store, retryCountOk u = true)
    (u : Transaction) (hu : u ∈ retrySweep gw now store) :
    retryCountOk u = true ∧ (u.canRetry ≠ some true → u ∈ store) ∧
    (∀ s : Transaction, retrySelect s = true →
      s.status = .failed ∧ s.canRetry = some true ∧
        s.retryCount.any (fun n => decide (n < 3)) = true) := by
  unfold retrySweep at hu
  rcases mem_foldl_saveToStore (fun t => retryItem (gw t.id) now t) _ _ _ hu with
    hmem | ⟨t, ht, hut⟩
  · exact ⟨hB u hmem, fun _ => hmem, fun s hs => retrySelect_spec s hs⟩
  · have hts : retrySelect t = true :=
      (List.mem_filter.mp (List.mem_of_mem_take ht)).2
    subst hut
    refine ⟨?_, ?_, fun s hs => retrySelect_spec s hs⟩
    · rw [retryCountOk, retryItem_retryCount]
      exact decide_eq_true (retrySelect_bound t hts)
    · intro hne
      exact absurd (by rw [retryItem_canRetry]; exact retrySelect_canRetry t hts)
        hne

/-- C9 witness: a pending record without retry metadata passes through
a concrete sweep untouched. -/
theorem retry_sweep_bounds_witness :
    retryCountOk (mkTxn "t1" .pending none) = true ∧
    ((mkTxn "t1" .pending none).canRetry ≠ some true →
      mkTxn "t1" .pending none ∈ [mkTxn "t1" .pending none]) ∧
    (∀ s : Transaction, retrySelect s = true →
      s.status = .failed ∧ s.canRetry = some true ∧
        s.retryCount.any (fun n => decide (n < 3)) = true) :=
  retry_sweep_bounds (fun _ => .error .unknown) 7 [mkTxn "t1" .pending none]
    (by decide) (mkTxn "t1" .pending none) (by decide)

/-! ### C10 -/

/-- C10 counterexample: cancelling a concrete `initiated` transaction
appends two history entries (the service's `cancelledBy` entry plus the
`pre('save')` hook's entry), not one: the history grows from length 1
to length 3. -/
theorem cancel_history_counterexample :
    (mkTxn "t1" .initiated none).statusHistory.length = 1 ∧
    (cancelTransaction businesses1 [mkTxn "t1" .initiated none] "t1" "key-1"
        5).1.map (fun t => t.statusHistory.length) = [3] := by
  exact ⟨rfl, rfl⟩

/-- C10 amended: for a transaction in `initiated` or `pending`, cancel
is purely local — `cancelTransaction` takes no gateway oracle at all —
and its entire effect is: status becomes `canceled`, exactly two history
entries are appended (the service's `cancelledBy: api` entry and the
save hook's timestamped entry), `updatedAt` is refreshed, and every
other field (amount, currency, phone number, references, payloads,
retry metadata, creation time) is left unchanged, as the explicit
record update shows. -/
theorem cancel_local_frame (businesses : List Business) (store : Store)
    (tid apiKey : String) (now : Nat) (b : Business) (k : ApiKeyEntry)
    (t : Transaction)
    (h1 : findBusiness businesses apiKey = some b)
    (h2 : findApiKey b apiKey = some k)
    (h3 : k.isActive = true)
    (ht : findByIdAndBusiness store tid b.id = some t)
    (hst : t.status = .initiated ∨ t.status = .pending) :
    ∃ t2, cancelTransaction businesses store tid apiKey now =
        (saveToStore store t2, .ok (formatTransactionResponse t2)) ∧
      t2 = { t with
        status := .canceled
        updatedAt := now
        statusHistory := t.statusHistory ++
          [{ status := .canceled, timestamp := now,
             metadata := .cancelledBy "api" },
           { status := .canceled, timestamp := now, metadata := .hook }] } := by
  have hmem : t.status ∈ [Status.initiated, Status.pending] := by
    rcases hst with h | h <;> simp [h]
  have hne : some t.status ≠ some Status.canceled := by
    rcases hst with h | h <;> simp [h]
  refine ⟨{ t with
      status := .canceled
      updatedAt := now
      statusHistory := t.statusHistory ++
        [{ status := .canceled, timestamp := now,
           metadata := .cancelledBy "api" },
         { status := .canceled, timestamp := now, metadata := .hook }] },
    ?_, rfl⟩
  unfold cancelTransaction
  simp only [h1, h2, h3, Bool.not_true, Bool.false_eq_true, if_false]
  rw [ht]
  dsimp only
  rw [if_pos hmem, saveHook_push _ _ _ hne]
  simp only [List.append_assoc, List.singleton_append]

/-- C10 amended witness. -/
theorem cancel_local_frame_witness :
    ∃ t2, cancelTransaction businesses1 [mkTxn "t1" .initiated none] "t1"
        "key-1" 5 =
        (saveToStore [mkTxn "t1" .initiated none] t2,
         .ok (formatTransactionResponse t2)) ∧
      t2 = { mkTxn "t1" .initiated none with
        status := .canceled
        updatedAt := 5
        statusHistory := (mkTxn "t1" .initiated none).statusHistory ++
          [{ status := .canceled, timestamp := 5,
             metadata := .cancelledBy "api" },
           { status := .canceled, timestamp := 5, metadata := .hook }] } :=
  cancel_local_frame businesses1 [mkTxn "t1" .initiated none] "t1" "key-1" 5
    bizA keyA (mkTxn "t1" .initiated none)
    (by decide) (by decide) (by decide) (by decide) (Or.inl rfl)

end MpesaPlatform
